import Mathlib

/-
Verification of the replay-buffer / action-selection core of the
atari_breakout DQN trainer.

Sources embedded here:
  - src/dqn/agent_trainer.py : hyperparameter constants (lines 20-37),
    optimize_model (lines 113-136), load_pretrained_model (lines 94-109),
    the training-loop gating of optimization (lines 200-222).
  - src/dqn/renderer.py : load_pretrained_model (lines 18-25) and the
    render entry point main (lines 90-108).
  - The dqn module itself (ReplayMemory, ActionSelector) is not part of
    the repository snapshot; those components are modelled from the
    specification (spec.md sections 3 and 4), as marked on each definition.

Machine reals (Python floats) are modelled as rationals; randomness
(sampled batch indices, the uniform draw of epsilon-greedy) is
externalized as explicit arguments.
-/

set_option autoImplicit false

namespace Breakout

/-! ## Hyperparameter constants, agent_trainer.py lines 20-37 -/

def batch_size : ℤ := 32

def gamma : ℚ := 99 / 100

def initial_epsilon : ℚ := 5 / 100

def final_epsilon : ℚ := 5 / 100

def epsilon_decay : Nat := 20000

def policy_network_update : Nat := 4

def random_exploration_interval : Nat := 10000

def frame_stack_size : Nat := 5

def previous_experience : Nat := 100000

/-! ## ReplayMemory

The dqn module holding the ReplayMemory class is not under src/; the
definitions below are modelled from the spec (spec.md sections 3, 4.1). -/

/-- One stored experience tuple.  The frame sequence has length
stack_size + 1 so that both state and next state can be recovered by
slicing (spec 4.1). -/
structure Transition (α : Type) where
  frames : List α
  action : Nat
  reward : ℚ
  done : Bool
  deriving DecidableEq, Repr

/-- Modelled from the spec: fixed-capacity circular buffer of transitions
(spec section 3, ReplayMemory attributes).  The preallocated storage is
modelled as a total function from slot index to optional occupant. -/
structure ReplayMemory (α : Type) where
  capacity : Nat
  stackSize : Nat
  slots : Nat → Option (Transition α)
  cursor : Nat
  size : Nat

/-- A freshly constructed memory: all slots empty, cursor and size zero. -/
def ReplayMemory.init (α : Type) (capacity stackSize : Nat) : ReplayMemory α :=
  ⟨capacity, stackSize, fun _ => none, 0, 0⟩

/-- Modelled from the spec: push writes the tuple at the current cursor
slot, overwriting any prior occupant, advances the cursor circularly and
increments size up to capacity (spec 4.1). -/
def ReplayMemory.push {α : Type} (m : ReplayMemory α)
    (frames : List α) (action : Nat) (reward : ℚ) (done : Bool) :
    ReplayMemory α :=
  { m with
    slots := fun j => if j = m.cursor then some ⟨frames, action, reward, done⟩ else m.slots j
    cursor := (m.cursor + 1) % m.capacity
    size := min (m.size + 1) m.capacity }

/-- Push a whole list of transitions in order. -/
def pushList {α : Type} (m : ReplayMemory α) (ts : List (Transition α)) :
    ReplayMemory α :=
  ts.foldl (fun acc t => acc.push t.frames t.action t.reward t.done) m

/-- The markers visible in the buffer: the action fields of the occupied
slots, in slot order. -/
def storedMarkers {α : Type} (m : ReplayMemory α) : List Nat :=
  (List.range m.capacity).filterMap (fun i => (m.slots i).map Transition.action)

theorem push_capacity {α : Type} (m : ReplayMemory α)
    (fs : List α) (a : Nat) (r : ℚ) (d : Bool) :
    (m.push fs a r d).capacity = m.capacity := rfl

theorem pushList_spec {α : Type} (C : Nat) :
    ∀ (ts : List (Transition α)) (m : ReplayMemory α),
      m.capacity = C → m.size ≤ C → m.cursor < C →
      (pushList m ts).capacity = C ∧
      (pushList m ts).size = min (m.size + ts.length) C ∧
      (pushList m ts).cursor = (m.cursor + ts.length) % C := by
  intro ts
  induction ts with
  | nil =>
    intro m hcap hsize hcur
    refine ⟨hcap, ?_, ?_⟩
    · simpa [pushList] using (Nat.min_eq_left hsize).symm
    · simpa [pushList] using (Nat.mod_eq_of_lt hcur).symm
  | cons t ts ih =>
    intro m hcap hsize hcur
    have hCpos : 0 < C := Nat.pos_of_ne_zero (by omega)
    have hstep := ih (m.push t.frames t.action t.reward t.done)
      (by simpa [ReplayMemory.push] using hcap)
      (by simp [ReplayMemory.push, hcap])
      (by simp [ReplayMemory.push, hcap]; exact Nat.mod_lt _ hCpos)
    rcases hstep with ⟨h1, h2, h3⟩
    refine ⟨by simpa [pushList] using h1, ?_, ?_⟩
    · have : (pushList m (t :: ts)).size =
          min (min (m.size + 1) C + ts.length) C := by
        simpa [pushList, ReplayMemory.push, hcap] using h2
      rw [this]
      simp [List.length_cons]
      omega
    · have : (pushList m (t :: ts)).cursor =
          ((m.cursor + 1) % C + ts.length) % C := by
        simpa [pushList, ReplayMemory.push, hcap] using h3
      rw [this, Nat.mod_add_mod]
      simp [List.length_cons]
      ring_nf

/-- The six marker transitions 0..5 of the wraparound scenario. -/
def markerPushes : List (Transition Nat) :=
  (List.range 6).map (fun i => ⟨[], i, 0, false⟩)

/-- The scenario memory: capacity 4, six pushes with markers 0..5. -/
def scenarioMem : ReplayMemory Nat :=
  pushList (ReplayMemory.init Nat 4 4) markerPushes

/-- Claim C2: for every capacity C at least 1, after pushing n transitions
into a fresh ReplayMemory the size equals min n C and the cursor equals
n mod C; concretely, with capacity 4, pushing six transitions with markers
0..5 leaves exactly the markers 2,3,4,5 stored (in slot order 4,5,2,3),
size 4 and cursor 2. -/
theorem replay_size_cursor_invariant (α : Type) (C s : Nat) (hC : 1 ≤ C)
    (ts : List (Transition α)) :
    ((pushList (ReplayMemory.init α C s) ts).size = min ts.length C ∧
     (pushList (ReplayMemory.init α C s) ts).cursor = ts.length % C) ∧
    (scenarioMem.size = 4 ∧ scenarioMem.cursor = 2 ∧
     storedMarkers scenarioMem = [4, 5, 2, 3] ∧
     (storedMarkers scenarioMem).toFinset = ({2, 3, 4, 5} : Finset ℕ)) := by
  have h := pushList_spec (α := α) C ts (ReplayMemory.init α C s) rfl
    (Nat.zero_le C) (Nat.lt_of_lt_of_le Nat.zero_lt_one hC)
  refine ⟨⟨?_, ?_⟩, by decide, by decide, by decide, by decide⟩
  · simpa [ReplayMemory.init] using h.2.1
  · simpa [ReplayMemory.init] using h.2.2

/-- Witness for C2: the invariant instantiated at the concrete scenario. -/
theorem replay_size_cursor_invariant_witness :
    ((pushList (ReplayMemory.init Nat 4 4) markerPushes).size =
       min markerPushes.length 4 ∧
     (pushList (ReplayMemory.init Nat 4 4) markerPushes).cursor =
       markerPushes.length % 4) ∧
    (scenarioMem.size = 4 ∧ scenarioMem.cursor = 2 ∧
     storedMarkers scenarioMem = [4, 5, 2, 3] ∧
     (storedMarkers scenarioMem).toFinset = ({2, 3, 4, 5} : Finset ℕ)) :=
  replay_size_cursor_invariant Nat 4 4 (by decide) markerPushes

/-! ## Sampling (spec 4.1, sample contract) -/

/-- The error reported on a precondition-violating sample request. -/
inductive SampleError where
  | invalidSampleSize
  deriving DecidableEq, Repr

/-- Parallel batches returned by a successful sample. -/
structure Batch (α : Type) where
  states : List (List α)
  actions : List Nat
  rewards : List ℚ
  nextStates : List (List α)
  dones : List Bool
  deriving DecidableEq, Repr

/-- The frame sequence stored in slot i (empty for an unoccupied slot). -/
def ReplayMemory.slotFrames {α : Type} (m : ReplayMemory α) (i : Nat) :
    List α :=
  (m.slots i).elim [] Transition.frames

/-- Modelled from the spec: sample fails with InvalidSampleSize when the
requested batch size exceeds the current size or is non-positive;
otherwise it returns parallel batches in which state and next state are
the first stack_size frames and the last stack_size frames of each
selected slot's stored frame sequence (spec 4.1).  The uniform random
index draws, with replacement from the occupied range, are externalized
as the argument idxs. -/
def ReplayMemory.sample {α : Type} (m : ReplayMemory α)
    (batchSize : ℤ) (idxs : List Nat) : Except SampleError (Batch α) :=
  if batchSize ≤ 0 ∨ (m.size : ℤ) < batchSize then
    .error .invalidSampleSize
  else
    .ok
      { states := idxs.map (fun i => (m.slotFrames i).take m.stackSize)
        actions := idxs.map (fun i => (m.slots i).elim 0 Transition.action)
        rewards := idxs.map (fun i => (m.slots i).elim 0 Transition.reward)
        nextStates := idxs.map
          (fun i => (m.slotFrames i).drop ((m.slotFrames i).length - m.stackSize))
        dones := idxs.map (fun i => (m.slots i).elim false Transition.done) }

/-- Claim C3: sample fails with an InvalidSampleSize error whenever the
requested batch size exceeds the current size or is non-positive, and in
that case no batch at all is returned. -/
theorem sample_invalid_size_error {α : Type} (m : ReplayMemory α)
    (batchSize : ℤ) (idxs : List Nat)
    (h : batchSize ≤ 0 ∨ (m.size : ℤ) < batchSize) :
    m.sample batchSize idxs = .error .invalidSampleSize ∧
    ∀ b : Batch α, m.sample batchSize idxs ≠ .ok b := by
  constructor
  · simp [ReplayMemory.sample, h]
  · intro b
    simp [ReplayMemory.sample, h]

/-- Witness for C3: a fresh memory of capacity 4 holds 0 transitions, so
sampling a batch of 32 fails. -/
theorem sample_invalid_size_error_witness :
    (ReplayMemory.init Nat 4 4).sample 32 [] = .error .invalidSampleSize ∧
    ∀ b : Batch Nat, (ReplayMemory.init Nat 4 4).sample 32 [] ≠ .ok b :=
  sample_invalid_size_error (ReplayMemory.init Nat 4 4) 32 []
    (Or.inr (by decide))

/-- Claim C4: a transition written by push at cursor position p stores a
frame sequence of length stack_size + 1; any subsequent successful sample
whose drawn indices include p returns, at that index, a state equal to
the first stack_size frames and a next state equal to the last stack_size
frames (the tail) of the stored sequence, value-exact. -/
theorem push_sample_roundtrip {α : Type} (m : ReplayMemory α)
    (fs : List α) (a : Nat) (r : ℚ) (d : Bool)
    (hlen : fs.length = m.stackSize + 1)
    (batchSize : ℤ) (idxs : List Nat) (j : Nat)
    (hj : idxs[j]? = some m.cursor) (b : Batch α)
    (hs : (m.push fs a r d).sample batchSize idxs = .ok b) :
    b.states[j]? = some (fs.take m.stackSize) ∧
    b.nextStates[j]? = some (fs.drop 1) := by
  rw [ReplayMemory.sample] at hs
  split at hs
  · exact absurd hs (by simp)
  · have hb : _ = b := Except.ok.inj hs
    have hframes : (m.push fs a r d).slotFrames m.cursor = fs := by
      simp [ReplayMemory.slotFrames, ReplayMemory.push]
    have hstack : (m.push fs a r d).stackSize = m.stackSize := rfl
    constructor
    · rw [← hb]
      simp [List.getElem?_map, hj, hframes, hstack]
    · rw [← hb]
      simp only [List.getElem?_map, hj, Option.map_some']
      rw [hframes, hstack, hlen]
      simp

/-- Witness for C4: capacity 2, stack size 1, pushing the frame sequence
[7, 8] and sampling index 0 returns state [7] and next state [8]. -/
theorem push_sample_roundtrip_witness :
    (Batch.mk [[(7 : ℕ)]] [0] [0] [[8]] [false]).states[0]? = some [7] ∧
    (Batch.mk [[(7 : ℕ)]] [0] [0] [[8]] [false]).nextStates[0]? = some [8] :=
  push_sample_roundtrip (ReplayMemory.init Nat 2 1) [7, 8] 0 0 false rfl
    1 [0] 0 rfl (Batch.mk [[7]] [0] [0] [[8]] [false]) rfl

/-! ## ActionSelector

The dqn module holding the ActionSelector class is not under src/; the
epsilon schedule and the forced-random branch are modelled from the spec
(spec.md section 3 invariant and section 4.2 step 1).  The constructor
arguments mirror the call at agent_trainer.py line 174 with the network
and device abstracted away. -/

/-- Epsilon-greedy selector configuration. -/
structure ActionSelector where
  epsStart : ℚ
  epsEnd : ℚ
  epsDecay : Nat
  warmup : Nat
  numActions : Nat
  deriving DecidableEq, Repr

/-- Modelled from the spec: the effective epsilon at global step t decays
from epsStart to epsEnd over epsDecay steps (linearly) and is clamped to
epsEnd thereafter (spec section 3, ActionSelector invariant). -/
def ActionSelector.epsilon (s : ActionSelector) (t : Nat) : ℚ :=
  if s.epsDecay ≤ t then s.epsEnd
  else s.epsStart + (s.epsEnd - s.epsStart) * t / s.epsDecay

/-- Modelled from the spec: select_action overrides the epsilon-greedy
choice with a forced uniformly random action exactly when the global step
lies inside the warm-up window or exploring is disabled (spec 4.2
step 1). -/
def ActionSelector.forcedRandom (s : ActionSelector) (t : Nat)
    (training : Bool) : Bool :=
  decide (t < s.warmup) || !training

/-- The selector the training loop constructs (agent_trainer.py line 174),
with the action count left abstract. -/
def trainSelector (numActions : Nat) : ActionSelector :=
  ⟨initial_epsilon, final_epsilon, epsilon_decay,
   random_exploration_interval, numActions⟩

/-- Claim C5: for every decaying configuration the effective epsilon is
monotonically non-increasing in the global step, and for every global step
at or past the decay horizon it equals epsEnd exactly. -/
theorem epsilon_monotone_plateau (s : ActionSelector)
    (h : s.epsEnd ≤ s.epsStart) :
    (∀ t1 t2 : Nat, t1 ≤ t2 → s.epsilon t2 ≤ s.epsilon t1) ∧
    (∀ t : Nat, s.epsDecay ≤ t → s.epsilon t = s.epsEnd) := by
  constructor
  · intro t1 t2 ht
    unfold ActionSelector.epsilon
    by_cases h1 : s.epsDecay ≤ t1
    · have h2 : s.epsDecay ≤ t2 := le_trans h1 ht
      simp [h1, h2]
    · have hD : (0 : ℚ) < s.epsDecay := by
        have : 0 < s.epsDecay := by omega
        exact_mod_cast this
      by_cases h2 : s.epsDecay ≤ t2
      · rw [if_neg h1, if_pos h2, mul_div_assoc]
        have ht1 : (t1 : ℚ) ≤ (s.epsDecay : ℚ) := by
          have : t1 ≤ s.epsDecay := by omega
          exact_mod_cast this
        have hfrac : (t1 : ℚ) / s.epsDecay ≤ 1 := (div_le_one hD).mpr ht1
        nlinarith [mul_nonneg (sub_nonneg.mpr h) (sub_nonneg.mpr hfrac)]
      · rw [if_neg h1, if_neg h2, mul_div_assoc, mul_div_assoc]
        have htq : (t1 : ℚ) ≤ (t2 : ℚ) := by exact_mod_cast ht
        have hq : (t1 : ℚ) / s.epsDecay ≤ (t2 : ℚ) / s.epsDecay := by gcongr
        nlinarith [mul_nonneg (sub_nonneg.mpr h) (sub_nonneg.mpr hq)]
  · intro t htd
    unfold ActionSelector.epsilon
    simp [htd]

/-- Witness for C5: the monotone decay instantiated at a configuration
decaying from 9/10 to 1/10 over 1000 steps. -/
theorem epsilon_monotone_plateau_witness :
    ((1 : ℚ) / 10 ≤ 9 / 10) ∧
    ((∀ t1 t2 : Nat, t1 ≤ t2 →
        (ActionSelector.mk (9/10) (1/10) 1000 0 4).epsilon t2 ≤
        (ActionSelector.mk (9/10) (1/10) 1000 0 4).epsilon t1) ∧
     (∀ t : Nat, 1000 ≤ t →
        (ActionSelector.mk (9/10) (1/10) 1000 0 4).epsilon t = 1/10)) :=
  ⟨by norm_num,
   epsilon_monotone_plateau (ActionSelector.mk (9/10) (1/10) 1000 0 4)
     (by norm_num)⟩

/-- Claim C6: with the program's constants (epsilon decaying from 5/100 to
5/100 over 20000 steps) the effective epsilon equals 5/100 at every global
step, and the decay denominator is nonzero, so the computation never
divides by zero. -/
theorem epsilon_degenerate_constant (n t : Nat) :
    (trainSelector n).epsilon t = 5 / 100 ∧ ((epsilon_decay : ℚ) ≠ 0) := by
  constructor
  · unfold trainSelector ActionSelector.epsilon
    by_cases h : epsilon_decay ≤ t
    · simp [h, final_epsilon]
    · simp [h, initial_epsilon, final_epsilon]
  · norm_num [epsilon_decay]

/-- The global step the training loop passes to select_action
(agent_trainer.py line 207). -/
def trainGlobalStep (step : Nat) : Nat := step + previous_experience

/-- Claim C9: every training-loop call to select_action passes a global
step of at least previous_experience = 100000, which is strictly above the
warm-up window length random_exploration_interval = 10000, so the
step-count-based forced-random branch never fires and forced randomness is
decided solely by the training flag. -/
theorem warmup_branch_unreachable (step n : Nat) (flag : Bool) :
    previous_experience ≤ trainGlobalStep step ∧
    random_exploration_interval < trainGlobalStep step ∧
    ¬ (trainGlobalStep step < (trainSelector n).warmup) ∧
    (trainSelector n).forcedRandom (trainGlobalStep step) flag = !flag := by
  refine ⟨?_, ?_, ?_, ?_⟩
  · unfold trainGlobalStep
    omega
  · unfold trainGlobalStep previous_experience random_exploration_interval
    omega
  · unfold trainGlobalStep trainSelector previous_experience
      random_exploration_interval
    dsimp only
    omega
  · have hlt : ¬ (trainGlobalStep step < (trainSelector n).warmup) := by
      unfold trainGlobalStep trainSelector previous_experience
        random_exploration_interval
      dsimp only
      omega
    simp [ActionSelector.forcedRandom, hlt]

/-! ## optimize_model and its gating by the training loop
(agent_trainer.py lines 113-136 and 200-222) -/

/-- The warm-up threshold of agent_trainer.py line 201:
max(random_exploration_interval - previous_experience, 0), computed over
the integers exactly as in Python. -/
def warmupThreshold : ℤ :=
  max ((random_exploration_interval : ℤ) - (previous_experience : ℤ)) 0

/-- The training flag of agent_trainer.py line 201: true when the current
memory size exceeds the warm-up threshold. -/
def trainingFlag (memLen : Nat) : Bool :=
  decide (warmupThreshold < (memLen : ℤ))

/-- Embedding of optimize_model (agent_trainer.py lines 113-136).  When
the train flag is false it returns immediately; otherwise it samples a
batch of batch_size transitions from the replay memory and performs one
optimizer step, abstracted as optStep over the external
network-and-optimizer state.  The Bool records whether the replay memory
was read.  When the sample call fails, the exception propagates in
Python, so no optimizer step is applied and the state is unchanged. -/
def optimize_model {α σ τ : Type} (optStep : σ → τ → Batch α → σ)
    (train : Bool) (memory : ReplayMemory α) (policyOpt : σ) (target : τ)
    (idxs : List Nat) : σ × Bool :=
  if train = false then (policyOpt, false)
  else
    match memory.sample batch_size idxs with
    | .ok b => (optStep policyOpt target b, true)
    | .error _ => (policyOpt, true)

/-- Claim C1: the warm-up threshold computed at agent_trainer.py line 201
equals 0 under the configured constants; the training flag holds exactly
when the memory size exceeds that threshold; whenever it does not, the
optimization step is skipped and the replay memory is not read; and
because the threshold is 0, optimization can be attempted with fewer
stored transitions than batch_size. -/
theorem training_flag_gates_optimization :
    warmupThreshold = 0 ∧
    (∀ memLen : Nat, trainingFlag memLen = true ↔ warmupThreshold < memLen) ∧
    (∀ (α σ τ : Type) (optStep : σ → τ → Batch α → σ)
       (memory : ReplayMemory α) (policyOpt : σ) (target : τ)
       (idxs : List Nat),
       trainingFlag memory.size = false →
       optimize_model optStep (trainingFlag memory.size) memory policyOpt
         target idxs = (policyOpt, false)) ∧
    (trainingFlag 1 = true ∧ (1 : ℤ) < batch_size) := by
  refine ⟨by decide, ?_, ?_, by decide, by decide⟩
  · intro memLen
    simp [trainingFlag]
  · intro α σ τ optStep memory policyOpt target idxs hflag
    rw [hflag]
    simp [optimize_model]

/-- Witness for C1: a fresh memory has size 0, which does not exceed the
threshold, so the optimization step is skipped and the memory unread. -/
theorem training_flag_gates_optimization_witness :
    optimize_model (fun (s : Unit) (_ : Unit) (_ : Batch Nat) => s)
      (trainingFlag (ReplayMemory.init Nat 4 4).size)
      (ReplayMemory.init Nat 4 4) () () [] = ((), false) :=
  training_flag_gates_optimization.2.2.1 Nat Unit Unit
    (fun s _ _ => s) (ReplayMemory.init Nat 4 4) () () [] (by decide)

/-- Claim C10: optimize_model called with the train flag false returns
immediately: the network-and-optimizer state is returned unchanged and
the replay memory is not sampled. -/
theorem optimize_model_no_train_frame (α σ τ : Type)
    (optStep : σ → τ → Batch α → σ) (memory : ReplayMemory α)
    (policyOpt : σ) (target : τ) (idxs : List Nat) :
    optimize_model optStep false memory policyOpt target idxs
      = (policyOpt, false) := by
  simp [optimize_model]

/-! ## The optimization arithmetic (agent_trainer.py lines 119-136) -/

/-- Maximum over the action dimension, as taken by
target_net(n_state_batch).max(1)[0] at line 123. -/
def rowMax : List ℚ → ℚ
  | [] => 0
  | q :: qs => qs.foldl max q

/-- Indexing the per-action value estimates at the chosen action, as done
by gather(1, action_batch) at line 121. -/
def gatherAction (qs : List ℚ) (a : Nat) : ℚ := qs.getD a 0

/-- Per-element Bellman target of line 125:
(t_network * gamma) * (1 - done) + reward, the done flag encoded as the
float 0 or 1 as in done_batch. -/
def expected_state_action_value (tmax done reward : ℚ) : ℚ :=
  tmax * gamma * (1 - done) + reward

/-- Elementwise smooth L1 (Huber) loss with the default beta of 1, the
function computed by the external loss collaborator at line 127. -/
def smooth_l1 (x y : ℚ) : ℚ :=
  if |x - y| < 1 then (x - y) ^ 2 / 2 else |x - y| - 1 / 2

/-- Three-way pointwise zip, truncating at the shortest list. -/
def zipWith3 {a b c d : Type} (f : a → b → c → d) :
    List a → List b → List c → List d
  | x :: xs, y :: ys, z :: zs => f x y z :: zipWith3 f xs ys zs
  | _, _, _ => []

/-- The batch of Bellman targets of line 125, built from the
target-network outputs on the next states, the done flags and the
rewards. -/
def optimize_targets (targetOut : List (List ℚ)) (dones rewards : List ℚ) :
    List ℚ :=
  zipWith3
    (fun qs done reward => expected_state_action_value (rowMax qs) done reward)
    targetOut dones rewards

/-- Mean smooth L1 loss over the batch, the reduction applied at
line 127. -/
def smooth_l1_loss (qs ts : List ℚ) : ℚ :=
  (List.zipWith smooth_l1 qs ts).sum / qs.length

/-- The loss of lines 119-127: smooth L1 between the policy-network value
of each taken action and the Bellman target. -/
def optimize_loss (policyOut : List (List ℚ)) (actions : List Nat)
    (targetOut : List (List ℚ)) (dones rewards : List ℚ) : ℚ :=
  smooth_l1_loss (List.zipWith gatherAction policyOut actions)
    (optimize_targets targetOut dones rewards)

/-- Gradient clipping of line 134: param.grad.data.clamp_(-1, 1)
componentwise. -/
def clampGrad (g : ℚ) : ℚ := max (-1) (min g 1)

theorem foldl_max_mem : ∀ (l : List ℚ) (q : ℚ), l.foldl max q ∈ q :: l := by
  intro l
  induction l with
  | nil =>
    intro q
    simp
  | cons a l ih =>
    intro q
    rw [List.foldl_cons]
    rcases List.mem_cons.mp (ih (max q a)) with h1 | h2
    · rcases max_choice q a with hq | ha
      · rw [h1, hq]
        simp
      · rw [h1, ha]
        simp
    · exact List.mem_cons_of_mem _ (List.mem_cons_of_mem _ h2)

theorem le_foldl_max :
    ∀ (l : List ℚ) (q x : ℚ), x ∈ q :: l → x ≤ l.foldl max q := by
  intro l
  induction l with
  | nil =>
    intro q x hx
    simp at hx
    simp [hx]
  | cons a l ih =>
    intro q x hx
    rw [List.foldl_cons]
    have hhead : max q a ≤ l.foldl max (max q a) :=
      ih (max q a) (max q a) (List.mem_cons_self _ _)
    rcases List.mem_cons.mp hx with h1 | h2
    · subst h1
      exact le_trans (le_max_left x a) hhead
    · rcases List.mem_cons.mp h2 with h3 | h4
      · subst h3
        exact le_trans (le_max_right q x) hhead
      · exact ih (max q a) x (List.mem_cons_of_mem _ h4)

theorem zipWith3_congr {a b c d : Type} (f g : a → b → c → d)
    (h : ∀ x y z, f x y z = g x y z) :
    ∀ (xs : List a) (ys : List b) (zs : List c),
      zipWith3 f xs ys zs = zipWith3 g xs ys zs := by
  intro xs
  induction xs with
  | nil =>
    intro ys zs
    simp [zipWith3]
  | cons x xs ih =>
    intro ys zs
    cases ys with
    | nil => simp [zipWith3]
    | cons y ys =>
      cases zs with
      | nil => simp [zipWith3]
      | cons z zs => simp [zipWith3, h, ih]

/-- Claim C7: the optimization step computes the Bellman target
reward + gamma * (1 - done) * (max over actions of the target-network
values on the next state), takes the smooth L1 (Huber) loss between the
policy-network value of the taken action and that target, and clips every
gradient component into [-1, 1] before the optimizer step. -/
theorem optimize_bellman_huber_clip
    (policyOut targetOut : List (List ℚ)) (actions : List Nat)
    (dones rewards : List ℚ) (qrow : List ℚ) (hrow : qrow ≠ []) :
    (optimize_targets targetOut dones rewards =
       zipWith3 (fun qs done reward => reward + gamma * (1 - done) * rowMax qs)
         targetOut dones rewards) ∧
    (rowMax qrow ∈ qrow ∧ ∀ x ∈ qrow, x ≤ rowMax qrow) ∧
    (optimize_loss policyOut actions targetOut dones rewards =
       (List.zipWith smooth_l1 (List.zipWith gatherAction policyOut actions)
          (optimize_targets targetOut dones rewards)).sum /
       (List.zipWith gatherAction policyOut actions).length) ∧
    (∀ g : ℚ, -1 ≤ clampGrad g ∧ clampGrad g ≤ 1) := by
  refine ⟨?_, ?_, rfl, ?_⟩
  · exact zipWith3_congr _ _
      (fun qs done reward => by unfold expected_state_action_value; ring)
      targetOut dones rewards
  · match qrow, hrow with
    | q :: l, _ =>
      exact ⟨foldl_max_mem l q, fun x hx => le_foldl_max l q x hx⟩
  · intro g
    unfold clampGrad
    exact ⟨le_max_left _ _, max_le (by norm_num) (min_le_right g 1)⟩

/-- Witness for C7: the claim instantiated at a concrete one-element
batch with target-network row [3, 4]. -/
theorem optimize_bellman_huber_clip_witness :
    (optimize_targets [[3, 4]] [0] [1] =
       zipWith3 (fun qs done reward => reward + gamma * (1 - done) * rowMax qs)
         [[3, 4]] [0] [1]) ∧
    (rowMax [3, 4] ∈ ([3, 4] : List ℚ) ∧
       ∀ x ∈ ([3, 4] : List ℚ), x ≤ rowMax [3, 4]) ∧
    (optimize_loss [[1, 2]] [1] [[3, 4]] [0] [1] =
       (List.zipWith smooth_l1 (List.zipWith gatherAction [[1, 2]] [1])
          (optimize_targets [[3, 4]] [0] [1])).sum /
       (List.zipWith gatherAction [[1, 2]] [1]).length) ∧
    (∀ g : ℚ, -1 ≤ clampGrad g ∧ clampGrad g ≤ 1) :=
  optimize_bellman_huber_clip [[1, 2]] [[3, 4]] [1] [0] [1] [3, 4]
    (by decide)

/-! ## Checkpoint loading (agent_trainer.py lines 94-109, renderer.py
lines 18-25 and 90-108) -/

/-- How the network weights end up initialized. -/
inductive LoadOutcome where
  | pretrained
  | newPolicy
  | scratch
  deriving DecidableEq, Repr

/-- The error raised by the renderer on a missing checkpoint file. -/
inductive RenderError where
  | fileNotFound
  deriving DecidableEq, Repr

/-- load_pretrained_model of agent_trainer.py lines 94-109: load the
pretrained checkpoint when present, else the newly saved policy when
present, else initialize the weights from scratch.  Never fails. -/
def trainer_load_pretrained_model (pretrainedExists newExists : Bool) :
    LoadOutcome :=
  if pretrainedExists then .pretrained
  else if newExists then .newPolicy
  else .scratch

/-- load_pretrained_model of renderer.py lines 18-25: raises
FileNotFoundError when no checkpoint file exists at the given path. -/
def renderer_load_pretrained_model (pathExists : Bool) :
    Except RenderError Unit :=
  if pathExists then .ok () else .error .fileNotFound

/-- The model-loading step the render entry point actually performs
(renderer.py main, lines 90-108): the call to load_pretrained_model at
line 105 is commented out, so main never reads a checkpoint and proceeds
with the freshly constructed network, regardless of the filesystem. -/
def renderer_main_load (_pathExists : Bool) : Except RenderError LoadOutcome :=
  .ok .scratch

/-- Claim C8 (code bug): with no checkpoint file present the renderer's
load_pretrained_model function does raise FileNotFoundError, and the
training entry point falls back to scratch initialization after first
trying the alternate saved-policy path; but the render entry point never
invokes its loader (the call at renderer.py line 105 is commented out),
so with no checkpoint it proceeds without failing, contradicting the
claim that the render-only entry point fails fatally. -/
theorem renderer_missing_checkpoint_eval :
    renderer_load_pretrained_model false = .error .fileNotFound ∧
    trainer_load_pretrained_model false false = .scratch ∧
    trainer_load_pretrained_model false true = .newPolicy ∧
    renderer_main_load false = .ok .scratch :=
  ⟨rfl, rfl, rfl, rfl⟩

end Breakout
